import Mathlib

/-
  Shallow embedding of mt5_bridge_client.py (class APIClient): the TOFU trust
  store, the connect() handshake, the command channel (_send_request), the
  subscription calls and the listener loop.  External effects (the wire, the
  filesystem, the clock) are passed in as explicit parameters; socket objects
  carry a generation counter so that a freshly created socket is distinguishable
  from the one it replaces.
-/

deriving instance DecidableEq for Except

namespace MT5Bridge

/-- Python truthiness of an optional string: None and the empty string are falsy. -/
def truthy : Option String → Bool
  | none => false
  | some s => !(s == "")

/-- Severity levels of the logging module, as used by the client. -/
inductive LogLevel
  | info
  | warning
  | error
  | critical
  deriving DecidableEq, Repr

/-- Numeric rank of a severity, mirroring the logging module ordering. -/
def LogLevel.rank : LogLevel → Nat
  | .info => 20
  | .warning => 30
  | .error => 40
  | .critical => 50

/-- A level is at least warning severity. -/
def LogLevel.atLeastWarning (l : LogLevel) : Bool :=
  LogLevel.warning.rank ≤ l.rank

/-- One emitted log record. -/
structure LogEntry where
  level : LogLevel
  msg : String
  deriving DecidableEq, Repr

/-- The client configuration fields used by the embedded code paths. -/
structure Config where
  server_ip : String
  handshake_port : Nat
  auth_key : String
  request_timeout : Nat
  deriving DecidableEq, Repr

/-- Contents of the persisted trust record JSON object; the key is optional
because json.load followed by dict.get can yield a record without it. -/
structure TrustRecord where
  server_public_key : Option String
  first_seen_timestamp : String
  server_ip_at_trust : String
  deriving DecidableEq, Repr

/-- State of the trust cache file on disk: absent, present but unreadable or
unparsable, or a readable stored record. -/
inductive TrustFile
  | absent
  | unreadable
  | stored (r : TrustRecord)
  deriving DecidableEq, Repr

/-- Errors raised (as ConnectionError) on the connect() path. -/
inductive ConnErr
  | handshakeTimeout
  | handshakeUndecodable
  | handshakeRejected (message : Option String)
  | noServerKey
  | identityMismatch
  deriving DecidableEq, Repr

/-- Reading the trust cache file, mirroring lines 159-169: a missing file gives
no key silently; an unreadable file logs a warning and gives no key; a readable
file gives whatever dict.get returns for server_public_key. -/
def loadTrustedKey : TrustFile → Option String × List LogEntry
  | .absent => (none, [])
  | .unreadable => (none, [⟨.warning, "Failed to read trust cache file"⟩])
  | .stored r => (r.server_public_key, [])

/-- Outcome of APIClient._verify_server_identity: the raised error or the
accepted key, the trust file state after the call, and the log records. -/
structure VerifyOutcome where
  result : Except ConnErr String
  file : TrustFile
  logs : List LogEntry
  deriving DecidableEq, Repr

/-- APIClient._verify_server_identity (lines 144-218).  receivedKey is
server_data.get of server_public_key; writeOk says whether the json.dump of the
new record succeeds; now is datetime.now().isoformat(). -/
def verifyServerIdentity (cfg : Config) (file : TrustFile)
    (receivedKey : Option String) (writeOk : Bool) (now : String) : VerifyOutcome :=
  if truthy receivedKey then
    let rk := receivedKey.getD ""
    let load := loadTrustedKey file
    if truthy load.1 then
      if rk = load.1.getD "" then
        { result := .ok rk, file := file,
          logs := load.2 ++ [⟨.info, "Server identity verified successfully using TOFU cache."⟩] }
      else
        { result := .error .identityMismatch, file := file,
          logs := load.2 ++ [⟨.critical, "CRITICAL SECURITY ALERT: SERVER IDENTITY MISMATCH"⟩] }
    else
      if writeOk then
        { result := .ok rk,
          file := .stored ⟨some rk, now, cfg.server_ip⟩,
          logs := load.2 ++ [⟨.warning, "Trusting server public key on first use."⟩,
                             ⟨.info, "Server public key cached successfully."⟩] }
      else
        { result := .ok rk, file := file,
          logs := load.2 ++ [⟨.warning, "Trusting server public key on first use."⟩,
                             ⟨.error, "Failed to write trust cache file"⟩] }
  else
    { result := .error .noServerKey, file := file, logs := [] }

/-- A ZMQ socket as the client observes it: the endpoint it was connected to,
the CURVE server key it was configured with, and a generation number that makes
each created socket distinct from every earlier one. -/
structure Socket where
  endpoint : String
  curveServerKey : Option String
  gen : Nat
  deriving DecidableEq, Repr

/-- Mutable attributes of APIClient that the embedded code paths touch. -/
structure ClientState where
  req_socket : Option Socket
  sub_socket : Option Socket
  subscriptions : List String
  listener_running : Bool
  server_public_key : Option String
  cmd_endpoint : Option String
  trustFile : TrustFile
  sockGen : Nat
  deriving DecidableEq, Repr

/-- State of a freshly constructed APIClient: no sockets, no listener thread,
no subscriptions, no server key or endpoint yet; the trust cache file may
already exist on disk. -/
def initialState (file : TrustFile) : ClientState :=
  { req_socket := none, sub_socket := none, subscriptions := [],
    listener_running := false, server_public_key := none,
    cmd_endpoint := none, trustFile := file, sockGen := 0 }

/-- Every live socket was created strictly before the current generation
counter; holds for every state the embedded operations produce. -/
def wfState (st : ClientState) : Bool :=
  (match st.req_socket with
   | none => true
   | some s => s.gen < st.sockGen) &&
  (match st.sub_socket with
   | none => true
   | some s => s.gen < st.sockGen)

/-- APIClient._connect_req_socket (lines 220-230): closes any existing REQ
socket and opens a fresh one against self.cmd_endpoint with the verified
server key. -/
def connectReqSocket (st : ClientState) : ClientState :=
  { st with
    req_socket := some ⟨st.cmd_endpoint.getD "", st.server_public_key, st.sockGen⟩,
    sockGen := st.sockGen + 1 }

/-- APIClient._connect_sub_socket (lines 232-240): opens the SUB socket against
the publishing endpoint with the verified server key.  It sets no topic filter,
so the freshly created socket subscribes to nothing. -/
def connectSubSocket (st : ClientState) (pubEndpoint : String) : ClientState :=
  { st with
    sub_socket := some ⟨pubEndpoint, st.server_public_key, st.sockGen⟩,
    subscriptions := [],
    sockGen := st.sockGen + 1 }

/-- The data object of a successful handshake reply. -/
structure HandshakeData where
  server_public_key : Option String
  encrypted_cmd_port : Nat
  encrypted_pub_port : Nat
  deriving DecidableEq, Repr

/-- Behaviour of the wire during the handshake exchange: the poll times out,
recv_json raises a JSON decode error, or a decodable reply arrives. -/
inductive HandshakeWire
  | timeout
  | undecodable
  | reply (status : Option String) (message : Option String) (data : HandshakeData)
  deriving DecidableEq, Repr

/-- Outcome of APIClient.connect: the raised error or unit, the client state
after the call, whether handshake_socket.close() ran before returning or
raising, and the TOFU log records. -/
structure ConnectOutcome where
  result : Except ConnErr Unit
  state : ClientState
  handshakeClosed : Bool
  logs : List LogEntry
  deriving DecidableEq, Repr

/-- Endpoint string built from the configured server ip and a port number. -/
def endpointFor (cfg : Config) (port : Nat) : String :=
  "tcp://" ++ cfg.server_ip ++ ":" ++ toString port

/-- APIClient.connect (lines 84-142).  If the poll times out the
ConnectionError is raised before the try/finally that closes the handshake
socket, so handshakeClosed is false on that path and true on every other.  On a
success status the TOFU verification runs; on acceptance the command endpoint
is recorded, the REQ and SUB sockets are created and the listener starts. -/
def connect (cfg : Config) (st : ClientState) (wire : HandshakeWire)
    (writeOk : Bool) (now : String) : ConnectOutcome :=
  match wire with
  | .timeout =>
      { result := .error .handshakeTimeout, state := st,
        handshakeClosed := false, logs := [] }
  | .undecodable =>
      { result := .error .handshakeUndecodable, state := st,
        handshakeClosed := true, logs := [] }
  | .reply status message data =>
      if status = some "success" then
        let v := verifyServerIdentity cfg st.trustFile data.server_public_key writeOk now
        match v.result with
        | .error e =>
            { result := .error e, state := { st with trustFile := v.file },
              handshakeClosed := true, logs := v.logs }
        | .ok key =>
            let st1 : ClientState :=
              { st with trustFile := v.file,
                        server_public_key := some key,
                        cmd_endpoint := some (endpointFor cfg data.encrypted_cmd_port) }
            let st2 := connectReqSocket st1
            let st3 := connectSubSocket st2 (endpointFor cfg data.encrypted_pub_port)
            { result := .ok (), state := { st3 with listener_running := true },
              handshakeClosed := true, logs := v.logs }
      else
        { result := .error (.handshakeRejected message), state := st,
          handshakeClosed := true, logs := [] }

/-- Iterated connect() calls with arbitrary per-call wire behaviour, write
success and clock reading; the state threads through. -/
def runConnects (cfg : Config) : ClientState → List (HandshakeWire × Bool × String) → ClientState
  | st, [] => st
  | st, (w, ok, now) :: rest => runConnects cfg (connect cfg st w ok now).state rest

/-- A response dictionary as _send_request returns it; end_to_end_duration_ms
is the field added client-side on the successful path, absent otherwise. -/
structure Response where
  status : Option String
  message : Option String
  error_code : Option Nat
  end_to_end_duration_ms : Option ℚ
  deriving DecidableEq, Repr

/-- Behaviour of the wire for one _send_request call: a decodable reply arrives
within the timeout, the poll times out, or a ZMQError is raised while sending
or receiving. -/
inductive ReqWire
  | reply (status : Option String) (message : Option String) (error_code : Option Nat)
  | timeout
  | zmqError (msg : String)
  deriving DecidableEq, Repr

/-- Outcome of APIClient._send_request: the returned dictionary, the client
state after the call, how many times the business request was transmitted, and
the log records. -/
structure SendOutcome where
  response : Response
  state : ClientState
  sends : Nat
  logs : List LogEntry
  deriving DecidableEq, Repr

/-- APIClient._send_request (lines 273-310).  With no REQ socket it returns the
503 dictionary at once without touching the wire.  Otherwise it sends exactly
once and: on a reply, stamps the wall-clock duration in milliseconds from the
sendTime and recvTime clock readings and returns the reply; on a poll timeout,
replaces the REQ socket via _connect_req_socket and returns the 408
dictionary; on a ZMQError, returns the 500 dictionary leaving the socket as it
was.  The business request is never re-sent. -/
def sendRequest (_cfg : Config) (st : ClientState) (action : String)
    (wire : ReqWire) (sendTime recvTime : ℚ) : SendOutcome :=
  match st.req_socket with
  | none =>
      { response := { status := some "error", message := some "Client not connected",
                      error_code := some 503, end_to_end_duration_ms := none },
        state := st, sends := 0, logs := [] }
  | some _ =>
      match wire with
      | .reply status message error_code =>
          { response := { status := status, message := message, error_code := error_code,
                          end_to_end_duration_ms := some ((recvTime - sendTime) * 1000) },
            state := st, sends := 1, logs := [] }
      | .timeout =>
          { response := { status := some "error",
                          message := some ("Request " ++ action ++ " timed out"),
                          error_code := some 408, end_to_end_duration_ms := none },
            state := connectReqSocket st, sends := 1,
            logs := [⟨.warning, "Request timed out, attempting to reconnect REQ socket"⟩] }
      | .zmqError m =>
          { response := { status := some "error",
                          message := some ("ZMQ communication error: " ++ m),
                          error_code := some 500, end_to_end_duration_ms := none },
            state := st, sends := 1,
            logs := [⟨.error, "A ZMQ error occurred while sending the request"⟩] }

/-- Python exceptions that the embedded paths can raise. -/
inductive PyExn
  | attributeError
  | jsonDecodeError
  | valueError
  deriving DecidableEq, Repr

/-- Effect on the SUB socket topic filter of the subscribe loop: one SUBSCRIBE
option per symbol, topic TICK. followed by the symbol. -/
def addTickFilters (subs : List String) (symbols : List String) : List String :=
  symbols.foldl (fun acc s => ("TICK." ++ s) :: acc) subs

/-- Effect on the topic filter of the unsubscribe loop: one UNSUBSCRIBE option
per symbol, removing one matching TICK. entry. -/
def removeTickFilters (subs : List String) (symbols : List String) : List String :=
  symbols.foldl (fun acc s => acc.erase ("TICK." ++ s)) subs

/-- APIClient.subscribe_symbols (lines 397-401).  The method dereferences
self.sub_socket before any connectivity check, so with no SUB socket it raises
AttributeError even for an empty symbol list (the unconditional HEARTBEAT
subscribe also dereferences it); otherwise it adds the TICK filters and the
HEARTBEAT filter and then delegates to _send_request. -/
def subscribeSymbols (cfg : Config) (st : ClientState) (symbols : List String)
    (wire : ReqWire) (sendTime recvTime : ℚ) : Except PyExn SendOutcome :=
  match st.sub_socket with
  | none => .error .attributeError
  | some _ =>
      let st1 := { st with
        subscriptions := "HEARTBEAT" :: addTickFilters st.subscriptions symbols }
      .ok (sendRequest cfg st1 "subscribe_symbols" wire sendTime recvTime)

/-- APIClient.unsubscribe_symbols (lines 403-406).  With an empty symbol list
the loop body never runs, so self.sub_socket is not dereferenced and the call
falls through to _send_request; with a non-empty list and no SUB socket the
first loop iteration raises AttributeError. -/
def unsubscribeSymbols (cfg : Config) (st : ClientState) (symbols : List String)
    (wire : ReqWire) (sendTime recvTime : ℚ) : Except PyExn SendOutcome :=
  match symbols, st.sub_socket with
  | [], _ =>
      .ok (sendRequest cfg st "unsubscribe_symbols" wire sendTime recvTime)
  | _ :: _, none => .error .attributeError
  | _ :: _, some _ =>
      let st1 := { st with subscriptions := removeTickFilters st.subscriptions symbols }
      .ok (sendRequest cfg st1 "unsubscribe_symbols" wire sendTime recvTime)

/-- What one poll cycle of the listener loop observes on the SUB socket. -/
inductive InMsg
  | nothingReady
  | wellFormed (topic : String) (payload : String)
  | badJson (topic : String)
  | badFrames
  | ctxTerminated
  deriving DecidableEq, Repr

/-- How one iteration of the listener while-loop ends. -/
inductive LoopStep
  | continueLoop
  | stopped
  | crashed (e : PyExn)
  deriving DecidableEq, Repr

/-- One iteration of the loop body of APIClient._listen_for_updates (lines
246-255).  The while condition checks the stop event first.  Inside, the only
except clause catches zmq.error.ContextTerminated and breaks; a payload that is
not valid JSON raises json.JSONDecodeError and a multipart message without
exactly two frames raises ValueError, and neither is caught, so they escape
the loop. -/
def listenStep (stopSet : Bool) (m : InMsg) : LoopStep :=
  if stopSet then .stopped
  else
    match m with
    | .nothingReady => .continueLoop
    | .wellFormed _ _ => .continueLoop
    | .badJson _ => .crashed .jsonDecodeError
    | .badFrames => .crashed .valueError
    | .ctxTerminated => .stopped

/-- State of the listener thread after consuming a finite prefix of poll
cycles. -/
inductive LoopResult
  | stillRunning
  | stopped
  | crashed (e : PyExn)
  deriving DecidableEq, Repr

/-- The listener loop run over a finite schedule of stop-flag readings and
inbound messages: it keeps iterating until a stop, a context termination or an
uncaught exception. -/
def listenLoop : List (Bool × InMsg) → LoopResult
  | [] => .stillRunning
  | (stop, m) :: rest =>
      match listenStep stop m with
      | .continueLoop => listenLoop rest
      | .stopped => .stopped
      | .crashed e => .crashed e

/-! Concrete values used by witnesses and counterexamples, matching the
scenario of spec section 8. -/

/-- The scenario configuration from spec section 8. -/
def cfg0 : Config :=
  { server_ip := "127.0.0.1", handshake_port := 5555,
    auth_key := "secret", request_timeout := 2000 }

/-- A pinned trust record holding key K1. -/
def pinnedK1 : TrustRecord :=
  { server_public_key := some "K1",
    first_seen_timestamp := "2026-01-01T00:00:00",
    server_ip_at_trust := "127.0.0.1" }

/-- Handshake data advertising key K1. -/
def dataK1 : HandshakeData :=
  { server_public_key := some "K1", encrypted_cmd_port := 5556,
    encrypted_pub_port := 5557 }

/-- Handshake data advertising a different key K2. -/
def dataK2 : HandshakeData :=
  { server_public_key := some "K2", encrypted_cmd_port := 5556,
    encrypted_pub_port := 5557 }

/-- The client state after one successful first-use connect. -/
def connectedState : ClientState :=
  (connect cfg0 (initialState .absent) (.reply (some "success") none dataK1) true "t0").state

/-- The client state after a subscribe_symbols call on the connected state. -/
def subscribedState : ClientState :=
  match subscribeSymbols cfg0 connectedState ["EURUSD"] (.reply (some "success") none none) 0 0 with
  | .ok o => o.state
  | .error _ => connectedState

/-- A placeholder outcome for impossible error branches of concrete calls. -/
def fallbackOutcome : SendOutcome :=
  ⟨⟨none, none, none, none⟩, initialState .absent, 0, []⟩

/-- The concrete outcome of a subscribe_symbols call on the subscribed state. -/
def subOutcome : SendOutcome :=
  match subscribeSymbols cfg0 subscribedState ["EURUSD"] (.reply none none none) 0 0 with
  | .ok o => o
  | .error _ => fallbackOutcome

/-- The concrete outcome of an unsubscribe_symbols call on the subscribed
state. -/
def unsubOutcome : SendOutcome :=
  match unsubscribeSymbols cfg0 subscribedState ["EURUSD"] (.reply none none none) 0 0 with
  | .ok o => o
  | .error _ => fallbackOutcome

/-! Helper lemmas shared by the claim theorems. -/

/-- The liveness topic string is never equal to a tick topic string. -/
theorem heartbeat_ne_tick (s : String) : "HEARTBEAT" ≠ "TICK." ++ s := by
  intro h
  have h2 := congrArg String.data h
  rw [String.data_append] at h2
  simp at h2

/-- Erasing tick topics never removes the liveness topic. -/
theorem heartbeat_mem_removeTickFilters (subs symbols : List String)
    (h : "HEARTBEAT" ∈ subs) : "HEARTBEAT" ∈ removeTickFilters subs symbols := by
  induction symbols generalizing subs with
  | nil => simpa [removeTickFilters] using h
  | cons s rest ih =>
      have h1 : "HEARTBEAT" ∈ subs.erase ("TICK." ++ s) :=
        (List.mem_erase_of_ne (heartbeat_ne_tick s)).mpr h
      simpa [removeTickFilters] using ih (subs.erase ("TICK." ++ s)) h1

/-- Verification against a pinned non-empty key never changes the trust file,
and accepts only the pinned key itself. -/
theorem verifyServerIdentity_pinned (cfg : Config) (r : TrustRecord)
    (rk : Option String) (w : Bool) (now : String)
    (hk : truthy r.server_public_key = true) :
    (verifyServerIdentity cfg (.stored r) rk w now).file = .stored r ∧
    ∀ k, (verifyServerIdentity cfg (.stored r) rk w now).result = .ok k →
      r.server_public_key = some k ∧ rk = some k := by
  cases hr : r.server_public_key with
  | none => rw [hr] at hk; simp [truthy] at hk
  | some s =>
      rw [hr] at hk
      have hs' : s ≠ "" := by simpa [truthy] using hk
      cases hrk : rk with
      | none =>
          constructor
          · simp [verifyServerIdentity, truthy]
          · intro k hkk
            simp [verifyServerIdentity, truthy] at hkk
      | some t =>
          by_cases ht : t = ""
          · subst ht
            constructor
            · simp [verifyServerIdentity, truthy]
            · intro k hkk
              simp [verifyServerIdentity, truthy] at hkk
          · by_cases heq : t = s
            · constructor
              · simp [verifyServerIdentity, loadTrustedKey, truthy, hr, ht, heq, hs']
              · intro k hkk
                simp [verifyServerIdentity, loadTrustedKey, truthy, hr, ht, heq, hs'] at hkk
                simp [hr, heq, ← hkk]
            · constructor
              · simp [verifyServerIdentity, loadTrustedKey, truthy, hr, ht, heq, hs']
              · intro k hkk
                simp [verifyServerIdentity, loadTrustedKey, truthy, hr, ht, heq, hs'] at hkk

/-- A single connect() never changes a pinned non-empty trust record. -/
theorem connect_pinned_trustFile (cfg : Config) (st : ClientState) (r : TrustRecord)
    (wire : HandshakeWire) (w : Bool) (now : String)
    (hst : st.trustFile = .stored r) (hk : truthy r.server_public_key = true) :
    (connect cfg st wire w now).state.trustFile = st.trustFile := by
  cases wire with
  | timeout => simp [connect]
  | undecodable => simp [connect]
  | reply status message data =>
      by_cases hs : status = some "success"
      · have hv := verifyServerIdentity_pinned cfg r data.server_public_key w now hk
        rw [← hst] at hv
        cases hres : (verifyServerIdentity cfg st.trustFile data.server_public_key w now).result with
        | error e => simp [connect, hs, hres, hv.1]
        | ok k =>
            simp [connect, hs, hres, connectReqSocket, connectSubSocket, hv.1]
      · simp [connect, hs]

/-- Any finite sequence of connect() calls never changes a pinned non-empty
trust record. -/
theorem runConnects_pinned (cfg : Config) (st : ClientState) (r : TrustRecord)
    (ops : List (HandshakeWire × Bool × String))
    (hst : st.trustFile = .stored r) (hk : truthy r.server_public_key = true) :
    (runConnects cfg st ops).trustFile = st.trustFile := by
  induction ops generalizing st with
  | nil => simp [runConnects]
  | cons op rest ih =>
      obtain ⟨w, ok, now⟩ := op
      have h1 := connect_pinned_trustFile cfg st r w ok now hst hk
      have h2 := ih (connect cfg st w ok now).state (h1.trans hst)
      rw [runConnects, h2, h1]

/-- Erasing tick topics over any sequence of symbol lists never removes the
liveness topic. -/
theorem heartbeat_mem_foldl_remove (subs : List String) (lss : List (List String))
    (h : "HEARTBEAT" ∈ subs) : "HEARTBEAT" ∈ lss.foldl removeTickFilters subs := by
  induction lss generalizing subs with
  | nil => simpa using h
  | cons l rest ih =>
      simpa [List.foldl] using ih (removeTickFilters subs l) (heartbeat_mem_removeTickFilters subs l h)

/-- Verification of a key that differs from a pinned non-empty key yields the
identity mismatch error, leaves the file alone and logs a critical alert. -/
theorem verifyServerIdentity_mismatch (cfg : Config) (r : TrustRecord) (tk k : String)
    (w : Bool) (now : String)
    (hr : r.server_public_key = some tk) (htk : tk ≠ "") (hk : k ≠ "") (hne : k ≠ tk) :
    verifyServerIdentity cfg (.stored r) (some k) w now =
      { result := .error .identityMismatch, file := .stored r,
        logs := [⟨.critical, "CRITICAL SECURITY ALERT: SERVER IDENTITY MISMATCH"⟩] } := by
  simp [verifyServerIdentity, loadTrustedKey, truthy, hr, htk, hk, hne]

/-- Verification with no readable stored key accepts the received key; a
successful write persists the new record, a failed write leaves the file alone
and logs at error severity. -/
theorem verifyServerIdentity_firstUse (cfg : Config) (file : TrustFile) (k now : String)
    (w : Bool) (hk : k ≠ "") (hfile : (loadTrustedKey file).1 = none) :
    (verifyServerIdentity cfg file (some k) w now).result = .ok k ∧
    (w = true → (verifyServerIdentity cfg file (some k) w now).file
        = .stored ⟨some k, now, cfg.server_ip⟩) ∧
    (w = false → (verifyServerIdentity cfg file (some k) w now).file = file ∧
        (⟨.error, "Failed to write trust cache file"⟩ : LogEntry)
          ∈ (verifyServerIdentity cfg file (some k) w now).logs) := by
  cases w <;> simp [verifyServerIdentity, truthy, hk, hfile]

/-- _send_request never touches the SUB socket topic filter. -/
theorem sendRequest_subscriptions (cfg : Config) (st : ClientState) (action : String)
    (wire : ReqWire) (t0 t1 : ℚ) :
    (sendRequest cfg st action wire t0 t1).state.subscriptions = st.subscriptions := by
  cases hreq : st.req_socket with
  | none => simp [sendRequest, hreq]
  | some s =>
      cases wire with
      | reply a b c => simp [sendRequest, hreq]
      | timeout => simp [sendRequest, hreq, connectReqSocket]
      | zmqError m => simp [sendRequest, hreq]

/-- A subscribe_symbols call that returns normally leaves the filter set at
the tick topics of its argument plus the liveness topic, on top of whatever
was subscribed before. -/
theorem subscribeSymbols_ok_subs (cfg : Config) (st : ClientState)
    (symbols : List String) (wire : ReqWire) (t0 t1 : ℚ) (o : SendOutcome)
    (h : subscribeSymbols cfg st symbols wire t0 t1 = .ok o) :
    o.state.subscriptions = "HEARTBEAT" :: addTickFilters st.subscriptions symbols := by
  cases hsub : st.sub_socket with
  | none => simp [subscribeSymbols, hsub] at h
  | some ss =>
      simp [subscribeSymbols, hsub] at h
      subst h
      rw [sendRequest_subscriptions]

/-- An unsubscribe_symbols call that returns normally leaves the filter set at
the previous one with the tick topics of its argument erased. -/
theorem unsubscribeSymbols_ok_subs (cfg : Config) (st : ClientState)
    (symbols : List String) (wire : ReqWire) (t0 t1 : ℚ) (o : SendOutcome)
    (h : unsubscribeSymbols cfg st symbols wire t0 t1 = .ok o) :
    o.state.subscriptions = removeTickFilters st.subscriptions symbols := by
  cases symbols with
  | nil =>
      simp [unsubscribeSymbols] at h
      subst h
      rw [sendRequest_subscriptions]
      simp [removeTickFilters]
  | cons a rest =>
      cases hsub : st.sub_socket with
      | none => simp [unsubscribeSymbols, hsub] at h
      | some ss =>
          simp [unsubscribeSymbols, hsub] at h
          subst h
          rw [sendRequest_subscriptions]

/-! Claim theorems. -/

/-- C1: when a trust record exists whose stored key differs byte-for-byte from
the server_public_key of a successful handshake reply, connect() fails with the
fatal identity-mismatch ConnectionError, the client state — including the
pinned key on disk, the REQ socket, the SUB socket and the listener flag — is
exactly what it was before the call, and a critical security alert is
logged. -/
theorem connect_mismatch_aborts (cfg : Config) (st : ClientState) (r : TrustRecord)
    (tk k : String) (message : Option String) (data : HandshakeData)
    (writeOk : Bool) (now : String)
    (hst : st.trustFile = .stored r) (hr : r.server_public_key = some tk) (htk : tk ≠ "")
    (hdata : data.server_public_key = some k) (hk : k ≠ "") (hne : k ≠ tk) :
    connect cfg st (.reply (some "success") message data) writeOk now =
      { result := .error .identityMismatch, state := st, handshakeClosed := true,
        logs := [⟨.critical, "CRITICAL SECURITY ALERT: SERVER IDENTITY MISMATCH"⟩] } := by
  have hv := verifyServerIdentity_mismatch cfg r tk k writeOk now hr htk hk hne
  rw [← hst] at hv
  simp [connect, hdata, hv]

/-- Witness for C1 at the spec section 8 scenario: pinned K1, reply carries K2. -/
theorem connect_mismatch_aborts_witness :
    connect cfg0 (initialState (.stored pinnedK1)) (.reply (some "success") none dataK2) true "t1" =
      { result := .error .identityMismatch, state := initialState (.stored pinnedK1),
        handshakeClosed := true,
        logs := [⟨.critical, "CRITICAL SECURITY ALERT: SERVER IDENTITY MISMATCH"⟩] } :=
  connect_mismatch_aborts cfg0 (initialState (.stored pinnedK1)) pinnedK1 "K1" "K2"
    none dataK2 true "t1" rfl rfl (by decide) rfl (by decide) (by decide)

/-- C2: once the trust file holds a pinned (non-empty) server key, no sequence
of connect() calls, whatever the handshake replies, ever changes the stored
record; and a connect() that succeeds against such a pinned record can only
have received exactly the pinned key. -/
theorem pinned_key_never_rewritten (cfg : Config) (st : ClientState) (r : TrustRecord)
    (ops : List (HandshakeWire × Bool × String))
    (status message : Option String) (data : HandshakeData) (w : Bool) (now : String)
    (hst : st.trustFile = .stored r) (hk : truthy r.server_public_key = true)
    (hok : (connect cfg st (.reply status message data) w now).result = .ok ()) :
    (runConnects cfg st ops).trustFile = st.trustFile ∧
    data.server_public_key = r.server_public_key := by
  refine ⟨runConnects_pinned cfg st r ops hst hk, ?_⟩
  by_cases hs : status = some "success"
  · have hv := verifyServerIdentity_pinned cfg r data.server_public_key w now hk
    rw [← hst] at hv
    cases hres : (verifyServerIdentity cfg st.trustFile data.server_public_key w now).result with
    | error e => simp [connect, hs, hres] at hok
    | ok key =>
        obtain ⟨h1, h2⟩ := hv.2 key hres
        rw [h1, h2]
  · simp [connect, hs] at hok

/-- Witness for C2: with K1 pinned, a sequence holding a mismatching reply and
a handshake timeout leaves the pinned record untouched, and a successful
connect received exactly K1. -/
theorem pinned_key_never_rewritten_witness :
    (runConnects cfg0 (initialState (.stored pinnedK1))
        [(.reply (some "success") none dataK2, true, "t2"), (.timeout, true, "t3")]).trustFile
      = (initialState (.stored pinnedK1)).trustFile ∧
    dataK1.server_public_key = pinnedK1.server_public_key :=
  pinned_key_never_rewritten cfg0 (initialState (.stored pinnedK1)) pinnedK1
    [(.reply (some "success") none dataK2, true, "t2"), (.timeout, true, "t3")]
    (some "success") none dataK1 true "t0" rfl (by decide) (by decide)

/-- C3: with no readable trust record the received key is accepted
unconditionally and connect() proceeds to open both encrypted sockets and
start the listener; a successful write persists the record with the key, the
clock reading and the configured server ip; a failed write is non-fatal — the
session is still established with the received key trusted, the file is left
alone and a message of at least warning severity is logged. -/
theorem first_use_trusts_and_persists (cfg : Config) (st : ClientState)
    (k : String) (message : Option String) (data : HandshakeData)
    (writeOk : Bool) (now : String)
    (hst : st.trustFile = .absent ∨ st.trustFile = .unreadable)
    (hdata : data.server_public_key = some k) (hk : k ≠ "") :
    (connect cfg st (.reply (some "success") message data) writeOk now).result = .ok () ∧
    (connect cfg st (.reply (some "success") message data) writeOk now).state.server_public_key
        = some k ∧
    (connect cfg st (.reply (some "success") message data) writeOk now).state.req_socket
        = some ⟨endpointFor cfg data.encrypted_cmd_port, some k, st.sockGen⟩ ∧
    (connect cfg st (.reply (some "success") message data) writeOk now).state.sub_socket
        = some ⟨endpointFor cfg data.encrypted_pub_port, some k, st.sockGen + 1⟩ ∧
    (connect cfg st (.reply (some "success") message data) writeOk now).state.listener_running
        = true ∧
    (writeOk = true →
        (connect cfg st (.reply (some "success") message data) writeOk now).state.trustFile
          = .stored ⟨some k, now, cfg.server_ip⟩) ∧
    (writeOk = false →
        (connect cfg st (.reply (some "success") message data) writeOk now).state.trustFile
            = st.trustFile ∧
        ∃ e ∈ (connect cfg st (.reply (some "success") message data) writeOk now).logs,
          e.level = .error ∧ e.level.atLeastWarning = true) := by
  have hload : (loadTrustedKey st.trustFile).1 = none := by
    rcases hst with h | h <;> simp [loadTrustedKey, h]
  have hv := verifyServerIdentity_firstUse cfg st.trustFile k now writeOk hk hload
  cases writeOk with
  | true =>
      have hfile := hv.2.1 rfl
      simp [connect, hdata, hv.1, hfile, connectReqSocket, connectSubSocket]
  | false =>
      have hfile := (hv.2.2 rfl).1
      have hlog := (hv.2.2 rfl).2
      refine ?_
      simp [connect, hdata, hv.1, hfile, connectReqSocket, connectSubSocket]
      exact ⟨⟨.error, "Failed to write trust cache file"⟩, hlog, rfl, by decide⟩

/-- Witness for C3: first connect against an absent trust file with a failing
record write still yields a fully established, trusted session. -/
theorem first_use_trusts_and_persists_witness :
    (connect cfg0 (initialState .absent) (.reply (some "success") none dataK1) false "t0").result
        = .ok () ∧
    (connect cfg0 (initialState .absent) (.reply (some "success") none dataK1) false "t0").state.server_public_key
        = some "K1" ∧
    (connect cfg0 (initialState .absent) (.reply (some "success") none dataK1) false "t0").state.req_socket
        = some ⟨endpointFor cfg0 dataK1.encrypted_cmd_port, some "K1", (initialState .absent).sockGen⟩ ∧
    (connect cfg0 (initialState .absent) (.reply (some "success") none dataK1) false "t0").state.sub_socket
        = some ⟨endpointFor cfg0 dataK1.encrypted_pub_port, some "K1", (initialState .absent).sockGen + 1⟩ ∧
    (connect cfg0 (initialState .absent) (.reply (some "success") none dataK1) false "t0").state.listener_running
        = true ∧
    (False = True →
        (connect cfg0 (initialState .absent) (.reply (some "success") none dataK1) false "t0").state.trustFile
          = .stored ⟨some "K1", "t0", cfg0.server_ip⟩) ∧
    (True →
        (connect cfg0 (initialState .absent) (.reply (some "success") none dataK1) false "t0").state.trustFile
            = (initialState .absent).trustFile ∧
        ∃ e ∈ (connect cfg0 (initialState .absent) (.reply (some "success") none dataK1) false "t0").logs,
          e.level = .error ∧ e.level.atLeastWarning = true) := by
  have h := first_use_trusts_and_persists cfg0 (initialState .absent) "K1" none dataK1
    false "t0" (Or.inl rfl) rfl (by decide)
  exact ⟨h.1, h.2.1, h.2.2.1, h.2.2.2.1, h.2.2.2.2.1,
    fun hx => absurd hx (by simp), fun _ => h.2.2.2.2.2.2 rfl⟩

/-- C4: a request that times out returns the structured 408 error dictionary,
sends the business request exactly once, and replaces the REQ socket with a
fresh one (distinct from the old one) against the same stored command endpoint
and the same stored server identity, which are themselves unchanged. -/
theorem timeout_selfheal_no_retry (cfg : Config) (st : ClientState) (s : Socket)
    (e pk action : String) (t0 t1 : ℚ)
    (hreq : st.req_socket = some s) (hwf : wfState st = true)
    (he : st.cmd_endpoint = some e) (hpk : st.server_public_key = some pk) :
    (sendRequest cfg st action .timeout t0 t1).response =
      { status := some "error", message := some ("Request " ++ action ++ " timed out"),
        error_code := some 408, end_to_end_duration_ms := none } ∧
    (sendRequest cfg st action .timeout t0 t1).state.req_socket
        = some ⟨e, some pk, st.sockGen⟩ ∧
    (sendRequest cfg st action .timeout t0 t1).state.req_socket ≠ some s ∧
    (sendRequest cfg st action .timeout t0 t1).state.cmd_endpoint = st.cmd_endpoint ∧
    (sendRequest cfg st action .timeout t0 t1).state.server_public_key
        = st.server_public_key ∧
    (sendRequest cfg st action .timeout t0 t1).sends = 1 := by
  have hgen : s.gen < st.sockGen := by
    simp [wfState, hreq] at hwf
    exact hwf.1
  have hne : (⟨e, some pk, st.sockGen⟩ : Socket) ≠ s := by
    intro h
    have hg : st.sockGen = s.gen := congrArg Socket.gen h
    omega
  refine ⟨?_, ?_, ?_, ?_, ?_, ?_⟩ <;>
    simp [sendRequest, hreq, connectReqSocket, he, hpk, hne]

/-- Witness for C4 on the concrete connected state. -/
theorem timeout_selfheal_no_retry_witness :
    (sendRequest cfg0 connectedState "get_price" .timeout 0 1).response =
      { status := some "error", message := some ("Request " ++ "get_price" ++ " timed out"),
        error_code := some 408, end_to_end_duration_ms := none } ∧
    (sendRequest cfg0 connectedState "get_price" .timeout 0 1).state.req_socket
        = some ⟨"tcp://127.0.0.1:5556", some "K1", connectedState.sockGen⟩ ∧
    (sendRequest cfg0 connectedState "get_price" .timeout 0 1).state.req_socket
        ≠ some ⟨"tcp://127.0.0.1:5556", some "K1", 0⟩ ∧
    (sendRequest cfg0 connectedState "get_price" .timeout 0 1).state.cmd_endpoint
        = connectedState.cmd_endpoint ∧
    (sendRequest cfg0 connectedState "get_price" .timeout 0 1).state.server_public_key
        = connectedState.server_public_key ∧
    (sendRequest cfg0 connectedState "get_price" .timeout 0 1).sends = 1 :=
  timeout_selfheal_no_retry cfg0 connectedState ⟨"tcp://127.0.0.1:5556", some "K1", 0⟩
    "tcp://127.0.0.1:5556" "K1" "get_price" 0 1 (by decide) (by decide) (by decide) (by decide)

/-- C5 counterexample: on a client that has not connected, subscribe_symbols
does not return the structured 503 NotConnected result — it raises
AttributeError by dereferencing the absent SUB socket. -/
theorem subscribe_before_connect_raises :
    subscribeSymbols cfg0 (initialState .absent) ["EURUSD"] (.reply (some "success") none none) 0 0
      = .error .attributeError := rfl

/-- C5 amended: before connect(), request-sending calls return the structured
503 NotConnected dictionary immediately, with no send and no state change;
subscribe_symbols (with any symbol list, even empty) and unsubscribe_symbols
with a non-empty list instead raise AttributeError on the absent SUB socket;
only unsubscribe_symbols with an empty list reaches the 503 result. -/
theorem not_connected_calls (cfg : Config) (st : ClientState) (action : String)
    (symbols : List String) (wire : ReqWire) (t0 t1 : ℚ)
    (hreq : st.req_socket = none) (hsub : st.sub_socket = none) (hsy : symbols ≠ []) :
    sendRequest cfg st action wire t0 t1 =
      ⟨⟨some "error", some "Client not connected", some 503, none⟩, st, 0, []⟩ ∧
    subscribeSymbols cfg st symbols wire t0 t1 = .error .attributeError ∧
    subscribeSymbols cfg st [] wire t0 t1 = .error .attributeError ∧
    unsubscribeSymbols cfg st symbols wire t0 t1 = .error .attributeError ∧
    unsubscribeSymbols cfg st [] wire t0 t1 =
      .ok ⟨⟨some "error", some "Client not connected", some 503, none⟩, st, 0, []⟩ := by
  refine ⟨?_, ?_, ?_, ?_, ?_⟩
  · simp [sendRequest, hreq]
  · simp [subscribeSymbols, hsub]
  · simp [subscribeSymbols, hsub]
  · cases symbols with
    | nil => exact absurd rfl hsy
    | cons a rest => simp [unsubscribeSymbols, hsub]
  · simp [unsubscribeSymbols, sendRequest, hreq]

/-- Witness for C5 amended on a freshly constructed, never-connected client. -/
theorem not_connected_calls_witness :
    sendRequest cfg0 (initialState .absent) "get_account_info" (.reply none none none) 0 0 =
      ⟨⟨some "error", some "Client not connected", some 503, none⟩, initialState .absent, 0, []⟩ ∧
    subscribeSymbols cfg0 (initialState .absent) ["EURUSD"] (.reply none none none) 0 0
        = .error .attributeError ∧
    subscribeSymbols cfg0 (initialState .absent) [] (.reply none none none) 0 0
        = .error .attributeError ∧
    unsubscribeSymbols cfg0 (initialState .absent) ["EURUSD"] (.reply none none none) 0 0
        = .error .attributeError ∧
    unsubscribeSymbols cfg0 (initialState .absent) [] (.reply none none none) 0 0 =
      .ok ⟨⟨some "error", some "Client not connected", some 503, none⟩, initialState .absent, 0, []⟩ :=
  not_connected_calls cfg0 (initialState .absent) "get_account_info" ["EURUSD"]
    (.reply none none none) 0 0 rfl rfl (by decide)

/-- C7: a request whose reply arrives within the timeout returns a result
carrying end_to_end_duration_ms equal to the wall-clock duration in
milliseconds between the send-time and receive-time clock readings, and with a
non-decreasing clock that value is non-negative. -/
theorem reply_carries_duration (cfg : Config) (st : ClientState) (s : Socket)
    (action : String) (status message : Option String) (error_code : Option Nat)
    (t0 t1 : ℚ) (hreq : st.req_socket = some s) (ht : t0 ≤ t1) :
    (sendRequest cfg st action (.reply status message error_code) t0 t1).response.end_to_end_duration_ms
        = some ((t1 - t0) * 1000) ∧
    (0 : ℚ) ≤ (t1 - t0) * 1000 := by
  constructor
  · simp [sendRequest, hreq]
  · exact mul_nonneg (sub_nonneg.mpr ht) (by norm_num)

/-- Witness for C7 on the concrete connected state with a reply half a second
after the send. -/
theorem reply_carries_duration_witness :
    (sendRequest cfg0 connectedState "get_price" (.reply (some "success") none none)
        10 (21/2)).response.end_to_end_duration_ms = some (((21/2) - 10) * 1000) ∧
    (0 : ℚ) ≤ ((21/2) - 10) * 1000 :=
  reply_carries_duration cfg0 connectedState ⟨"tcp://127.0.0.1:5556", some "K1", 0⟩
    "get_price" (some "success") none none 10 (21/2) (by decide) (by norm_num)

/-- C10: a ZMQError while sending or awaiting a request on a connected client
returns the structured 500 error dictionary instead of raising, but — unlike
the timeout path — leaves the client state, including the possibly-poisoned
REQ socket, exactly as it was: no reconnection happens. -/
theorem zmq_error_no_selfheal (cfg : Config) (st : ClientState) (s : Socket)
    (action m : String) (t0 t1 : ℚ) (hreq : st.req_socket = some s) :
    (sendRequest cfg st action (.zmqError m) t0 t1).response =
      ⟨some "error", some ("ZMQ communication error: " ++ m), some 500, none⟩ ∧
    (sendRequest cfg st action (.zmqError m) t0 t1).state = st ∧
    (sendRequest cfg st action (.zmqError m) t0 t1).state.req_socket = some s ∧
    (sendRequest cfg st action (.zmqError m) t0 t1).sends = 1 := by
  refine ⟨?_, ?_, ?_, ?_⟩ <;> simp [sendRequest, hreq]

/-- Witness for C10 on the concrete connected state. -/
theorem zmq_error_no_selfheal_witness :
    (sendRequest cfg0 connectedState "buy" (.zmqError "EFSM") 0 1).response =
      ⟨some "error", some ("ZMQ communication error: " ++ "EFSM"), some 500, none⟩ ∧
    (sendRequest cfg0 connectedState "buy" (.zmqError "EFSM") 0 1).state = connectedState ∧
    (sendRequest cfg0 connectedState "buy" (.zmqError "EFSM") 0 1).state.req_socket
        = some ⟨"tcp://127.0.0.1:5556", some "K1", 0⟩ ∧
    (sendRequest cfg0 connectedState "buy" (.zmqError "EFSM") 0 1).sends = 1 :=
  zmq_error_no_selfheal cfg0 connectedState ⟨"tcp://127.0.0.1:5556", some "K1", 0⟩
    "buy" "EFSM" 0 1 (by decide)

/-- C6 counterexample: immediately after connect() returns successfully and
before any subscribe_symbols call, the SUB socket topic filter set is empty —
the fixed liveness topic HEARTBEAT is not subscribed, so the claimed invariant
fails at that point of the session. -/
theorem heartbeat_missing_after_connect :
    (connect cfg0 (initialState .absent) (.reply (some "success") none dataK1) true "t0").result
        = .ok () ∧
    (connect cfg0 (initialState .absent) (.reply (some "success") none dataK1) true "t0").state.listener_running
        = true ∧
    "HEARTBEAT" ∉
      (connect cfg0 (initialState .absent) (.reply (some "success") none dataK1) true "t0").state.subscriptions := by
  decide

/-- C6 amended: a successful connect() leaves the topic filter set empty;
every subscribe_symbols call (whatever its symbol list) adds HEARTBEAT to the
filter set; and once HEARTBEAT is present, neither a single
unsubscribe_symbols call nor any sequence of unsubscribe filter removals ever
takes it out. -/
theorem heartbeat_filter_amended (cfg : Config) (stc st : ClientState)
    (hwire : HandshakeWire) (w : Bool) (now : String)
    (symbols : List String) (wire : ReqWire) (t0 t1 : ℚ)
    (o1 o2 : SendOutcome) (lss : List (List String))
    (hconn : (connect cfg stc hwire w now).result = .ok ())
    (h1 : subscribeSymbols cfg st symbols wire t0 t1 = .ok o1)
    (hhb : "HEARTBEAT" ∈ st.subscriptions)
    (h2 : unsubscribeSymbols cfg st symbols wire t0 t1 = .ok o2) :
    (connect cfg stc hwire w now).state.subscriptions = [] ∧
    "HEARTBEAT" ∈ o1.state.subscriptions ∧
    "HEARTBEAT" ∈ o2.state.subscriptions ∧
    "HEARTBEAT" ∈ lss.foldl removeTickFilters st.subscriptions := by
  refine ⟨?_, ?_, ?_, heartbeat_mem_foldl_remove st.subscriptions lss hhb⟩
  · cases hwire with
    | timeout => simp [connect] at hconn
    | undecodable => simp [connect] at hconn
    | reply status message data =>
        by_cases hs : status = some "success"
        · cases hres : (verifyServerIdentity cfg stc.trustFile data.server_public_key w now).result with
          | error e => simp [connect, hs, hres] at hconn
          | ok k => simp [connect, hs, hres, connectReqSocket, connectSubSocket]
        · simp [connect, hs] at hconn
  · rw [subscribeSymbols_ok_subs cfg st symbols wire t0 t1 o1 h1]
    exact List.mem_cons_self _ _
  · rw [unsubscribeSymbols_ok_subs cfg st symbols wire t0 t1 o2 h2]
    exact heartbeat_mem_removeTickFilters st.subscriptions symbols hhb

/-- Witness for C6 amended on the concrete session: a first-use connect, then
a subscribe on the already-subscribed state, then an unsubscribe and a whole
sequence of unsubscribe filter removals. -/
theorem heartbeat_filter_amended_witness :
    (connect cfg0 (initialState .absent) (.reply (some "success") none dataK1) true "t0").state.subscriptions = [] ∧
    "HEARTBEAT" ∈ subOutcome.state.subscriptions ∧
    "HEARTBEAT" ∈ unsubOutcome.state.subscriptions ∧
    "HEARTBEAT" ∈ [["EURUSD"], ["GBPUSD", "EURUSD"]].foldl removeTickFilters subscribedState.subscriptions :=
  heartbeat_filter_amended cfg0 (initialState .absent) subscribedState
    (.reply (some "success") none dataK1) true "t0" ["EURUSD"] (.reply none none none) 0 0
    subOutcome unsubOutcome [["EURUSD"], ["GBPUSD", "EURUSD"]]
    (by decide) rfl (by decide) rfl

/-- C8 counterexample: when the handshake poll times out, connect() raises the
ConnectionError before the try/finally that closes the handshake socket, so
the short-lived handshake connection is not torn down on that outcome. -/
theorem handshake_timeout_socket_left_open :
    (connect cfg0 (initialState .absent) .timeout true "t0").handshakeClosed = false ∧
    (connect cfg0 (initialState .absent) .timeout true "t0").result = .error .handshakeTimeout :=
  ⟨rfl, rfl⟩

/-- C8 amended: on an undecodable reply, a rejected reply and a successful
reply (whatever the verification outcome) the handshake socket is closed
before connect() returns or raises; only on a handshake timeout is it left
open, the ConnectionError being raised before the close. -/
theorem handshake_socket_closure (cfg : Config) (st : ClientState) (w : Bool)
    (now : String) (status message : Option String) (data : HandshakeData) :
    (connect cfg st .timeout w now).handshakeClosed = false ∧
    (connect cfg st .timeout w now).result = .error .handshakeTimeout ∧
    (connect cfg st .undecodable w now).handshakeClosed = true ∧
    (connect cfg st (.reply status message data) w now).handshakeClosed = true := by
  refine ⟨rfl, rfl, rfl, ?_⟩
  by_cases hs : status = some "success"
  · cases hres : (verifyServerIdentity cfg st.trustFile data.server_public_key w now).result with
    | error e => simp [connect, hs, hres]
    | ok k => simp [connect, hs, hres]
  · simp [connect, hs]

/-- C9 counterexample: a multipart message whose payload is not valid JSON
makes the listener loop terminate with an uncaught json.JSONDecodeError — the
rest of the schedule is never processed, so decode failures are fatal to the
listener, contradicting the claim that they are logged and dropped. -/
theorem listener_crashes_on_bad_json :
    listenLoop [(false, .badJson "TICK.EURUSD"), (false, .nothingReady)]
      = .crashed .jsonDecodeError := rfl

/-- C9 amended: the listener loop body catches only ContextTerminated (which
stops the loop cleanly, as does the stop signal); a payload that fails JSON
decoding or a malformed multipart message raises an exception that escapes the
loop body and terminates the listener, while well-formed and absent messages
keep the loop running. -/
theorem listener_exception_policy (t p : String) (m : InMsg)
    (evs : List (Bool × InMsg)) :
    listenStep false (.badJson t) = .crashed .jsonDecodeError ∧
    listenStep false .badFrames = .crashed .valueError ∧
    listenStep false (.wellFormed t p) = .continueLoop ∧
    listenStep false .ctxTerminated = .stopped ∧
    listenStep true m = .stopped ∧
    listenLoop ((false, .badJson t) :: evs) = .crashed .jsonDecodeError :=
  ⟨rfl, rfl, rfl, rfl, rfl, rfl⟩

end MT5Bridge
